import Mathlib

/-!
Verification of the session/connection-recovery and background-location
subsystem of the yamkar app against its natural-language specification.

The development shallowly embeds the four source modules:

* `src/lib/eventBus.ts` — the publish/subscribe hub (`EventBusM` below);
* `src/lib/connectionManager.ts` — the visibility-driven connection
  recovery state machine (`ConnMgr` below);
* `src/lib/capacitor/authService.ts` — token storage and refresh
  (`AuthSvc` below);
* the background location service (`BgLoc` below) — position watch,
  upload pipeline and the persisted retry queue.

JavaScript is single threaded with run-to-completion between `await`
suspension points; accordingly every synchronous stretch of source code
is modelled as one atomic state transformation, and asynchronous
behaviour (the recovery watchdog timer, interleaved invocations) is
modelled by explicit time accounting at the suspension points.
-/

namespace EventBusM

/-- Callback identity.  The source stores JavaScript function references in
`events: Record<string, EventCallback[]>` and removal compares them with
reference inequality (`cb !== callback`); an opaque numeric identity models
a function reference faithfully for identity-based filtering. -/
abbrev CB := Nat

/-- The `events` record of the `EventBus` class: a map from topic string to
the list of subscribed callbacks, in subscription order.  A key that was
never subscribed maps to no list (the record has no such property). -/
abbrev Bus := List (String × List CB)

/-- Read `this.events[event]`, defaulting to the empty list the way
`subscribe` initialises a missing entry. -/
def busGet (b : Bus) (t : String) : List CB :=
  match b.lookup t with
  | some l => l
  | none => []

/-- Write `this.events[event] = l` (replace the entry, keep the rest). -/
def busSet (b : Bus) (t : String) (l : List CB) : Bus :=
  (t, l) :: b.filter (fun p => p.1 ≠ t)

/-- `subscribe(event, callback)` from eventBus.ts lines 6-16: creates the
entry if missing and pushes the callback.  (Its returned closure is
modelled by `unsubscribe` below.) -/
def subscribe (b : Bus) (t : String) (c : CB) : Bus :=
  busSet b t (busGet b t ++ [c])

/-- The unsubscribe closure returned by `subscribe` (eventBus.ts lines
13-15): `this.events[event] = this.events[event].filter(cb => cb !==
callback)`.  Note it filters by callback identity, not by registration,
so it is the same state transformation whichever of several identical
subscriptions returned it. -/
def unsubscribe (b : Bus) (t : String) (c : CB) : Bus :=
  busSet b t ((busGet b t).filter (fun cb => cb ≠ c))

/-- `publish(event, ...args)` (eventBus.ts lines 18-28) invokes the current
subscriber list of the topic in order (each wrapped in try/catch, so every
one is invoked regardless of failures).  The model returns the list of
invoked callbacks. -/
def publishInvocations (b : Bus) (t : String) : List CB :=
  busGet b t

/-- The `EVENTS` object literal of eventBus.ts lines 34-38.  Member access
on a key that is not a property of the object yields JavaScript
`undefined`, modelled as `none`. -/
def EVENTS : List (String × String) :=
  [("SUPABASE_RECONNECTED", "supabase:reconnected"),
   ("SESSION_RESTORED", "auth:session:restored"),
   ("DATA_REFRESH_NEEDED", "data:refresh:needed")]

/-- JavaScript member access `EVENTS.k`: `undefined` (`none`) when the key
is absent. -/
def jsGet (k : String) : Option String :=
  EVENTS.lookup k

/-- A JavaScript value used as a property key of a `Record` is coerced to
a string; `undefined` becomes the property key "undefined".  This is what
`publish(EVENTS.X, ...)` keys the subscriber lookup on when `EVENTS.X`
does not exist. -/
def busKey (v : Option String) : String :=
  match v with
  | some s => s
  | none => "undefined"

end EventBusM

namespace AuthSvc

/-- Result of one `Preferences.get` read of a key: a stored string value,
no stored value (`value: null`), or a thrown storage error. -/
inductive PrefRead where
  | val (s : String)
  | empty
  | err
deriving DecidableEq, Repr

/-- The persistent key-value store, keyed by preference name.  A key not
listed reads as `empty` (no stored value). -/
abbrev Storage := List (String × PrefRead)

/-- Read a key from the store (missing key reads as no value). -/
def prefGet (st : Storage) (k : String) : PrefRead :=
  match st.lookup k with
  | some r => r
  | none => PrefRead.empty

/-- `Preferences.set`: replace the stored value of a key. -/
def prefSet (st : Storage) (k v : String) : Storage :=
  (k, PrefRead.val v) :: st.filter (fun p => p.1 ≠ k)

def AUTH_TOKEN_KEY : String := "auth_token"
def REFRESH_TOKEN_KEY : String := "auth_refresh_token"
def USER_DATA_KEY : String := "auth_user_data"
def SESSION_EXPIRY_KEY : String := "auth_session_expiry"

/-- Longest decimal digit run at the head of the character list, as a
number; `none` when there is no leading digit. -/
def leadDigits (l : List Char) : Option Nat :=
  let ds := l.takeWhile (fun c => c.isDigit)
  if ds = [] then none
  else some (ds.foldl (fun a c => a * 10 + (c.toNat - 48)) 0)

/-- JavaScript WhiteSpace and LineTerminator code points, the characters
`parseInt` skips at the front of its input: space, tab, vertical tab,
form feed, line feed, carriage return, NBSP, the Unicode space
separators, line and paragraph separators, and the BOM. -/
def jsWhitespace (c : Char) : Bool :=
  decide (c = ' ') || decide (c = '\t') || decide (c = '\n') || decide (c = '\r') ||
  decide (c.toNat = 0x0B) || decide (c.toNat = 0x0C) || decide (c.toNat = 0xA0) ||
  decide (c.toNat = 0x1680) ||
  (decide (0x2000 ≤ c.toNat) && decide (c.toNat ≤ 0x200A)) ||
  decide (c.toNat = 0x2028) || decide (c.toNat = 0x2029) ||
  decide (c.toNat = 0x202F) || decide (c.toNat = 0x205F) ||
  decide (c.toNat = 0x3000) || decide (c.toNat = 0xFEFF)

/-- JavaScript `parseInt(s, 10)`: skip leading whitespace, read an
optional sign and then the longest decimal-digit run; yields `NaN`
(modelled `none`) when no digit follows. -/
def parseInt10 (s : String) : Option Int :=
  let cs := s.data.dropWhile jsWhitespace
  match cs with
  | '-' :: rest => (leadDigits rest).map (fun n => -(n : Int))
  | '+' :: rest => (leadDigits rest).map (fun n => (n : Int))
  | rest => (leadDigits rest).map (fun n => (n : Int))

/-- `isSessionExpired()` (authService.ts lines 120-133).  `nowSec` is
`Math.floor(Date.now() / 1000)`.  A storage error is caught and reported
expired; `if (!value) return true` catches both a missing value (null)
and a stored empty string (JS falsy); otherwise the stored string runs
through `parseInt(value, 10)` and the result of `currentTime >=
expiryTime` is returned — when `parseInt` yields `NaN` that JavaScript
comparison is `false`. -/
def isSessionExpired (st : Storage) (nowSec : Int) : Bool :=
  match prefGet st SESSION_EXPIRY_KEY with
  | PrefRead.err => true
  | PrefRead.empty => true
  | PrefRead.val v =>
    if v = "" then true
    else
      match parseInt10 v with
      | none => decide False
      | some e => decide (nowSec ≥ e)

/-- A session object as returned by the remote session service. -/
structure Session where
  access_token : String
  refresh_token : String
  /-- `session.expires_at` as interpreted by `new Date(...)`, in epoch
  milliseconds. -/
  expires_at : Int
  /-- `session.user`, serialised; `none` when absent. -/
  user : Option String
deriving DecidableEq, Repr

/-- Outcome of the remote `supabase.auth.refreshSession({refresh_token})`
call: an error result, a result with no session, a new session, or a
thrown exception. -/
inductive RefreshRemote where
  | errResult
  | noSession
  | ok (s : Session)
  | exn
deriving DecidableEq, Repr

/-- `storeSession(session)` (authService.ts lines 84-115): writes access
token, refresh token, expiry (converted to epoch seconds, floored) and —
only when present — the user data. -/
def storeSession (st : Storage) (sess : Session) : Storage :=
  let st := prefSet st AUTH_TOKEN_KEY sess.access_token
  let st := prefSet st REFRESH_TOKEN_KEY sess.refresh_token
  let expiryTime : Int := sess.expires_at.fdiv 1000
  let st := prefSet st SESSION_EXPIRY_KEY (toString expiryTime)
  match sess.user with
  | some u => prefSet st USER_DATA_KEY u
  | none => st

/-- `refreshToken()` (authService.ts lines 171-197).  `remote` maps the
refresh token handed to the remote service to that call's outcome.
Returns the success flag and the storage after the call.  A missing or
empty stored refresh token (JavaScript `!refreshToken`), a storage read
error (caught), an error result, a missing session in the result, and a
thrown exception all return `false` before `storeSession` runs. -/
def refreshToken (st : Storage) (remote : String → RefreshRemote) :
    Bool × Storage :=
  match prefGet st REFRESH_TOKEN_KEY with
  | PrefRead.err => (false, st)
  | PrefRead.empty => (false, st)
  | PrefRead.val rt =>
    if rt = "" then (false, st)
    else
      match remote rt with
      | RefreshRemote.errResult => (false, st)
      | RefreshRemote.noSession => (false, st)
      | RefreshRemote.exn => (false, st)
      | RefreshRemote.ok sess => (true, storeSession st sess)

end AuthSvc

namespace BgLoc

/-- A location payload sent to the server: `{latitude, longitude,
attendanceLogId}`.  Coordinates are opaque numbers to the queue logic; an
integer identity stands in for the IEEE double. -/
structure LocationData where
  latitude : Int
  longitude : Int
  attendanceLogId : String
deriving DecidableEq, Repr

/-- One entry of the persisted `failed_location_updates` queue: the
payload spread together with the enqueue timestamp
(`{...data, timestamp: Date.now()}`). -/
structure PendingUpload where
  data : LocationData
  timestamp : Nat
deriving DecidableEq, Repr

/-- JavaScript `array.slice(-n)`: the last `n` elements (the whole array
when it is shorter). -/
def takeLast (n : Nat) (l : List α) : List α :=
  l.drop (l.length - n)

/-- `storeFailedUpdate(data)` (background location service): reads the
persisted queue (absent reads as `[]`), pushes the payload with the
enqueue timestamp, and persists back `failedUpdates.slice(-50)` — at most
the last 50 entries, oldest dropped first.  The queue is modelled as the
parsed list the source round-trips through JSON. -/
def storeFailedUpdate (q : List PendingUpload) (d : LocationData)
    (now : Nat) : List PendingUpload :=
  takeLast 50 (q ++ [PendingUpload.mk d now])

/-- `sendLocationToServer(data)`: POSTs the payload; a non-2xx response
throws, and the catch block routes the payload into the retry queue via
`storeFailedUpdate` before rethrowing.  `ok` is whether the fetch
succeeded with a 2xx response (a thrown network error and a non-2xx
response take the same catch path).  Returns whether the call resolved,
and the persisted queue afterwards. -/
def sendLocationToServer (ok : Bool) (q : List PendingUpload)
    (d : LocationData) (now : Nat) : Bool × List PendingUpload :=
  if ok then (true, q)
  else (false, storeFailedUpdate q d now)

/-- One upload attempt as seen by the queue: whether it succeeded, its
payload, and the clock at enqueue time. -/
structure Attempt where
  ok : Bool
  data : LocationData
  now : Nat
deriving DecidableEq, Repr

/-- The persisted queue after a sequence of upload attempts. -/
def runAttempts (q : List PendingUpload) (as : List Attempt) :
    List PendingUpload :=
  as.foldl (fun q a => (sendLocationToServer a.ok q a.data a.now).2) q

/-- The entries the attempt sequence tries to enqueue, in order: one per
failed attempt. -/
def failedEntries (as : List Attempt) : List PendingUpload :=
  (as.filter (fun a => !a.ok)).map (fun a => PendingUpload.mk a.data a.now)

/-- `retryFailedUpdates()` (background location service): reads the
persisted queue (`none` = key absent), returns 0 untouched when absent or
empty; otherwise resends every entry in parallel (`Promise.allSettled`),
keeps exactly the entries whose resend was rejected
(`filter((_, index) => results[index].status === 'rejected')`, preserving
order), persists that subset back — overwriting any interim writes the
per-entry failure handler did — and returns the success count.
`results` gives, by index, whether each resend fulfilled. -/
def retryFailedUpdates (stored : Option (List PendingUpload))
    (results : List Bool) : Nat × Option (List PendingUpload) :=
  match stored with
  | none => (0, none)
  | some q =>
    if q.length = 0 then (0, some q)
    else
      let remaining := ((q.zip results).filter (fun p => !p.2)).map Prod.fst
      (q.length - remaining.length, some remaining)

def LOCATION_TRACKING_ENABLED : String := "location_tracking_enabled"
def ATTENDANCE_LOG_ID : String := "attendance_log_id"

/-- The location service's persisted preferences (reads assumed not to
throw; `initialize` performs them outside any try/catch), as a key-value
map: `none` is a key with no stored value. -/
def Prefs := String → Option String

/-- `Preferences.get({key: k})`. -/
def prefsLookup (p : Prefs) (k : String) : Option String :=
  p k

/-- `Preferences.set({key: k, value: v})`. -/
def prefsSet (p : Prefs) (k v : String) : Prefs :=
  fun q => if q = k then some v else p q

/-- JavaScript truthiness of a nullable string: not null and not "". -/
def jsTruthy (o : Option String) : Bool :=
  match o with
  | none => false
  | some s => s ≠ ""

/-- The module-level mutable state of the background location service:
`watchId`, `isTracking`, `currentAttendanceLogId`, together with the
persisted preferences they mirror. -/
structure BLState where
  watchId : Option Nat
  isTracking : Bool
  currentAttendanceLogId : Option String
  prefs : Prefs

/-- Platform outcomes for one `startTracking` call: whether
`checkPermissions()` reports location granted, and the result of
`Geolocation.watchPosition` (`none` models a thrown error). -/
structure TrackEnv where
  permissionGranted : Bool
  watchResult : Option Nat
deriving DecidableEq, Repr

/-- `stopTracking()`: clears the watch if present, marks tracking off and
persists `location_tracking_enabled = "false"`. -/
def stopTracking (st : BLState) : BLState :=
  { st with
    watchId := none
    isTracking := false
    prefs := prefsSet st.prefs LOCATION_TRACKING_ENABLED ("false") }

/-- `startTracking(attendanceLogId)`.  A falsy id (`null` or "") returns
`false` before any other statement runs (no storage write, no watch, no
tracking-state change).  Otherwise the id is stored in memory and in
preferences, permissions are checked (`false` if not granted), any prior
watch is torn down via `stopTracking`, and the watch is opened; only
after the watch is confirmed open are `isTracking` and its persisted
mirror set to true. -/
def startTracking (env : TrackEnv) (id? : Option String) (st : BLState) :
    Bool × BLState :=
  match id? with
  | none => (false, st)
  | some id =>
    if id = "" then (false, st)
    else
      let st := { st with
        currentAttendanceLogId := some id
        prefs := prefsSet st.prefs ATTENDANCE_LOG_ID id }
      if ¬ env.permissionGranted then (false, st)
      else
        let st := stopTracking st
        match env.watchResult with
        | none => (false, st)
        | some w =>
          (true, { st with
            watchId := some w
            isTracking := true
            prefs := prefsSet st.prefs LOCATION_TRACKING_ENABLED ("true") })

/-- `initialize(config)` of the background location service (tracking
state only; config merging and listener registration do not touch it):
restores `isTracking` from the persisted flag, overwrites
`currentAttendanceLogId` when a persisted id is present (truthy), and —
when tracking was enabled and the id is truthy — immediately restarts
tracking with it. -/
def initService (env : TrackEnv) (st : BLState) : BLState :=
  let tracking := prefsLookup st.prefs LOCATION_TRACKING_ENABLED == some ("true")
  let st := { st with isTracking := tracking }
  let st :=
    match prefsLookup st.prefs ATTENDANCE_LOG_ID with
    | some v => if v ≠ "" then { st with currentAttendanceLogId := some v } else st
    | none => st
  if st.isTracking && jsTruthy st.currentAttendanceLogId then
    (startTracking env st.currentAttendanceLogId st).2
  else st

/-- An operation of the background location service that touches the
tracking state. -/
inductive Op where
  | init (env : TrackEnv)
  | start (env : TrackEnv) (id? : Option String)
  | stop
deriving Repr

def applyOp (st : BLState) (op : Op) : BLState :=
  match op with
  | Op.init env => initService env st
  | Op.start env id? => (startTracking env id? st).2
  | Op.stop => stopTracking st

def applyOps (st : BLState) (ops : List Op) : BLState :=
  ops.foldl applyOp st

/-- The tracking-state invariant of the spec: `enabled = true` implies the
correlation id is non-null (truthy), both for the in-memory state and for
its persisted mirror (the mirror is what `initialize` restores from). -/
def goodState (st : BLState) : Bool :=
  (!st.isTracking || jsTruthy st.currentAttendanceLogId) &&
  (!(prefsLookup st.prefs LOCATION_TRACKING_ENABLED == some ("true")) ||
    jsTruthy (prefsLookup st.prefs ATTENDANCE_LOG_ID))

end BgLoc

namespace ConnMgr

/-- The `ConnectionStatus` enum of connectionManager.ts lines 7-14. -/
inductive ConnectionStatus where
  | CONNECTED
  | DISCONNECTED
  | RECONNECTING
  | AUTHENTICATING
  | READY
  | ERROR
deriving DecidableEq, Repr

/-- The module-level singleton state of connectionManager.ts that the
recovery sequence reads and writes: the published status, the
re-entrancy guard, the last-active clock, and whether the watchdog
timeout is currently armed (`reconnectTimeoutId !== null`). -/
structure CMState where
  connectionStatus : ConnectionStatus
  reconnectionInProgress : Bool
  lastActiveTime : Nat
  reconnectTimeoutId : Bool
deriving DecidableEq, Repr

/-- One event published on the bus by the connection manager: the bus key
the publish resolves to, and the `status` payload for
status-changed publishes (`none` for the payload-free publishes). -/
abbrev BusEvent := String × Option ConnectionStatus

/-- The asynchronous steps of the recovery sequence, recorded in the
order the sequence enters them. -/
inductive StepTag where
  | sessionCheck
  | refresh
  | realtime
  | probe
deriving DecidableEq, Repr

/-- Outcome of `supabase.auth.getSession()` once it settles: a rejection
(exception), a resolution with no session, or a session. -/
inductive SessionRes where
  | exn
  | noSession
  | found
deriving DecidableEq, Repr

/-- Outcome of `supabase.auth.refreshSession()` once it settles: a
resolved value carrying an error, a successful refresh, or a rejection. -/
inductive RefreshRes where
  | errResult
  | ok
  | exn
deriving DecidableEq, Repr

/-- Outcome of the probe query once it settles: a resolved value carrying
an error, a rejection, or success. -/
inductive ProbeRes where
  | errResult
  | exn
  | ok
deriving DecidableEq, Repr

/-- The realtime reset step (disconnect, 300 ms sleep, connect): either it
runs through with the two call durations, or some call throws after the
given time (the catch continues either way; only elapsed time differs). -/
inductive RealtimeRun where
  | ok (dDisc dConn : Nat)
  | fail (d : Nat)
deriving DecidableEq, Repr

/-- The environment of one `handleVisibilityChange` invocation: the
document visibility, `Date.now()` at entry, and the duration (ms) and
settled outcome of each remote call the sequence may make. -/
structure Env where
  visible : Bool
  now : Nat
  sessionDur : Nat
  sessionRes : SessionRes
  refreshDur : Nat
  refreshRes : RefreshRes
  realtime : RealtimeRun
  probeDur : Nat
  probeRes : ProbeRes
deriving DecidableEq, Repr

/-- The 10 s recovery watchdog (connectionManager.ts line 90). -/
def WATCHDOG_MS : Nat := 10000

/-- The 5 s `Promise.race` timeout wrapped around the session check, the
session refresh and the probe query. -/
def STEP_TIMEOUT_MS : Nat := 5000

/-- The bus key of `publish(EVENTS.CONNECTION_STATUS_CHANGED, ...)`. -/
def statusKey : String :=
  EventBusM.busKey (EventBusM.jsGet ("CONNECTION_STATUS_CHANGED"))

/-- The bus key of `publish(EVENTS.CONNECTION_RESTORED)`. -/
def restoredKey : String :=
  EventBusM.busKey (EventBusM.jsGet ("CONNECTION_RESTORED"))

/-- The bus key of `publish(EVENTS.DATA_REFRESH_NEEDED)`. -/
def refreshNeededKey : String :=
  EventBusM.busKey (EventBusM.jsGet ("DATA_REFRESH_NEEDED"))

/-- The session-check step fails (its `Promise.race` rejects): either the
5 s race timeout wins or `getSession` itself rejects. -/
def sessionFails (env : Env) : Bool :=
  decide (env.sessionDur > STEP_TIMEOUT_MS) || decide (env.sessionRes = SessionRes.exn)

/-- The session check resolves with no session. -/
def sessionMissing (env : Env) : Bool :=
  decide (env.sessionRes = SessionRes.noSession)

/-- `inactivityTime > 10000` (connectionManager.ts line 132), the
long-dormancy test that gates the forced session refresh. -/
def longInactivity (env : Env) (s : CMState) : Bool :=
  decide ((env.now : Int) - (s.lastActiveTime : Int) > 10000)

/-- The forced refresh resolves (within its 5 s race) with an error
result — the only refresh outcome that aborts the sequence. -/
def refreshAborts (env : Env) : Bool :=
  decide (env.refreshDur ≤ STEP_TIMEOUT_MS) && decide (env.refreshRes = RefreshRes.errResult)

/-- The probe query fails: its 5 s race times out, or it rejects, or it
resolves carrying an error. -/
def probeFails (env : Env) : Bool :=
  decide (env.probeDur > STEP_TIMEOUT_MS) || decide (env.probeRes ≠ ProbeRes.ok)

/-- In-flight context of one recovery run: the singleton state, the time
elapsed since the run armed its watchdog, the events published so far,
the steps entered so far, the value of the guard observed at each
suspension point (what a concurrently arriving invocation would see),
and whether the watchdog has fired. -/
structure Ctx where
  st : CMState
  elapsed : Nat
  events : List BusEvent
  steps : List StepTag
  suspGuards : List Bool
  watchdogFired : Bool
deriving DecidableEq, Repr

/-- `connectionStatus = s; eventBus.publish(EVENTS.CONNECTION_STATUS_CHANGED,
{status: connectionStatus})`. -/
def pubStatus (s : ConnectionStatus) (c : Ctx) : Ctx :=
  { c with
    st := { c.st with connectionStatus := s }
    events := c.events ++ [(statusKey, some s)] }

/-- The watchdog callback (connectionManager.ts lines 84-90), which the
event loop runs during the first suspension that reaches the 10 s
deadline while the timer is still armed: set status `ERROR`, publish it,
clear the guard and the timer handle. -/
def fireWatchdogIfDue (c : Ctx) : Ctx :=
  if c.st.reconnectTimeoutId && decide (WATCHDOG_MS ≤ c.elapsed) then
    let c := pubStatus ConnectionStatus.ERROR c
    { c with
      st := { c.st with reconnectionInProgress := false, reconnectTimeoutId := false }
      watchdogFired := true }
  else c

/-- One `await` of `d` ms: advance the clock, let the watchdog fire if
its deadline falls inside the wait, and record the guard value a
concurrent invocation arriving at this suspension would observe. -/
def awaitT (d : Nat) (c : Ctx) : Ctx :=
  let c := { c with elapsed := c.elapsed + d }
  let c := fireWatchdogIfDue c
  { c with suspGuards := c.suspGuards ++ [c.st.reconnectionInProgress] }

/-- Record that the sequence entered an asynchronous step. -/
def stepNote (t : StepTag) (c : Ctx) : Ctx :=
  { c with steps := c.steps ++ [t] }

/-- Result of one entry-point invocation. -/
structure RunResult where
  state : CMState
  events : List BusEvent
  steps : List StepTag
  suspGuards : List Bool
  watchdogFired : Bool
deriving DecidableEq, Repr

/-- The `finally` block (connectionManager.ts lines 238-246), reached on
every exit path of the recovery body (the inline clears on the early
return paths perform the same assignments just before it): clear the
watchdog timer handle and the re-entrancy guard. -/
def finallyExit (c : Ctx) : RunResult :=
  { state := { c.st with reconnectTimeoutId := false, reconnectionInProgress := false }
    events := c.events
    steps := c.steps
    suspGuards := c.suspGuards
    watchdogFired := c.watchdogFired }

/-- Steps 2 and 3 of the sequence (realtime reset, probe query) and the
success tail (connectionManager.ts lines 166-228). -/
def realtimeAndProbe (env : Env) (c : Ctx) : RunResult :=
  let c := stepNote StepTag.realtime c
  let c :=
    match env.realtime with
    | RealtimeRun.ok dDisc dConn => awaitT dConn (awaitT 300 (awaitT dDisc c))
    | RealtimeRun.fail d => awaitT d c
  let c := stepNote StepTag.probe c
  let c := awaitT (min env.probeDur STEP_TIMEOUT_MS) c
  if probeFails env then
    finallyExit (pubStatus ConnectionStatus.ERROR c)
  else
    let c := pubStatus ConnectionStatus.READY c
    let c := { c with events := c.events ++ [(restoredKey, none), (refreshNeededKey, none)] }
    let c := { c with st := { c.st with lastActiveTime := env.now + c.elapsed } }
    finallyExit c

/-- The recovery body (connectionManager.ts lines 74-246), entered when
the document is visible and the guard is free: clear any stale timer
handle, set the guard, arm the watchdog, publish `RECONNECTING`, compute
the inactivity duration, publish `AUTHENTICATING`, run the session check
under its 5 s race (a rejection — including the race timeout — lands in
the catch that publishes `ERROR`; no session publishes `DISCONNECTED`
and stops), optionally run the forced refresh when inactivity exceeds
10 s (only a resolved error result stops with `ERROR`; a rejection is
caught and the sequence continues), then the realtime reset and the
probe. -/
def runRecovery (env : Env) (s0 : CMState) : RunResult :=
  let s1 : CMState := { s0 with reconnectTimeoutId := false }
  let c : Ctx :=
    { st := { s1 with reconnectionInProgress := true, reconnectTimeoutId := true }
      elapsed := 0
      events := []
      steps := []
      suspGuards := []
      watchdogFired := false }
  let c := pubStatus ConnectionStatus.RECONNECTING c
  let c := pubStatus ConnectionStatus.AUTHENTICATING c
  let c := stepNote StepTag.sessionCheck c
  let c := awaitT (min env.sessionDur STEP_TIMEOUT_MS) c
  if sessionFails env then
    finallyExit (pubStatus ConnectionStatus.ERROR c)
  else if sessionMissing env then
    finallyExit (pubStatus ConnectionStatus.DISCONNECTED c)
  else
    if longInactivity env s0 then
      let c := stepNote StepTag.refresh c
      let c := awaitT (min env.refreshDur STEP_TIMEOUT_MS) c
      if refreshAborts env then
        finallyExit (pubStatus ConnectionStatus.ERROR c)
      else
        realtimeAndProbe env c
    else
      realtimeAndProbe env c

/-- An invocation that runs no recovery body. -/
def noRun (s : CMState) : RunResult :=
  { state := s, events := [], steps := [], suspGuards := [], watchdogFired := false }

/-- `handleVisibilityChange()` (connectionManager.ts lines 59-247): when
the document is not visible, only refresh `lastActiveTime`; when a
reconnection is in progress, return immediately; otherwise run the
recovery body. -/
def handleVisibilityChange (env : Env) (s : CMState) : RunResult :=
  if ¬ env.visible then noRun { s with lastActiveTime := env.now }
  else if s.reconnectionInProgress then noRun s
  else runRecovery env s

/-- `forceConnectionRefresh()` (connectionManager.ts lines 259-273):
`false` immediately when a reconnection is in progress; otherwise run
`handleVisibilityChange` and report whether the status afterwards is
`READY`. -/
def forceConnectionRefresh (env : Env) (s : CMState) : Bool × RunResult :=
  if s.reconnectionInProgress then (false, noRun s)
  else
    let r := handleVisibilityChange env s
    (decide (r.state.connectionStatus = ConnectionStatus.READY), r)

/-- The `status` payloads of the status-changed publishes of a run, in
publish order. -/
def statusesOf (evs : List BusEvent) : List ConnectionStatus :=
  evs.filterMap Prod.snd

/-- Number of suspension points of the realtime-plus-probe tail: three
awaits when the realtime reset runs through (disconnect, sleep, connect),
one when it throws, plus the probe await. -/
def rpSuspCount (env : Env) : Nat :=
  (match env.realtime with
   | RealtimeRun.ok _ _ => 3
   | RealtimeRun.fail _ => 1) + 1

/-- The terminal status a watchdog-free recovery run reaches, read off
the branch structure of `runRecovery`. -/
def terminalOf (env : Env) (s : CMState) : ConnectionStatus :=
  if sessionFails env then ConnectionStatus.ERROR
  else if sessionMissing env then ConnectionStatus.DISCONNECTED
  else if longInactivity env s && refreshAborts env then ConnectionStatus.ERROR
  else if probeFails env then ConnectionStatus.ERROR
  else ConnectionStatus.READY

/-- The asynchronous steps a watchdog-free recovery run enters, in
order. -/
def stepsOf (env : Env) (s : CMState) : List StepTag :=
  if sessionFails env then [StepTag.sessionCheck]
  else if sessionMissing env then [StepTag.sessionCheck]
  else if longInactivity env s then
    if refreshAborts env then [StepTag.sessionCheck, StepTag.refresh]
    else [StepTag.sessionCheck, StepTag.refresh, StepTag.realtime, StepTag.probe]
  else [StepTag.sessionCheck, StepTag.realtime, StepTag.probe]

/-- The events a watchdog-free recovery run publishes: the two leading
status publishes, then either the success triple (`READY`, connection
restored, data refresh needed) or the single terminal status publish. -/
def eventsOf (env : Env) (s : CMState) : List BusEvent :=
  [(statusKey, some ConnectionStatus.RECONNECTING),
   (statusKey, some ConnectionStatus.AUTHENTICATING)] ++
  (if terminalOf env s = ConnectionStatus.READY then
    [(statusKey, some ConnectionStatus.READY), (restoredKey, none), (refreshNeededKey, none)]
   else [(statusKey, some (terminalOf env s))])

theorem awaitT_not_due (d : Nat) (c : Ctx) (h : c.elapsed + d < WATCHDOG_MS) :
    awaitT d c =
      { c with elapsed := c.elapsed + d
               suspGuards := c.suspGuards ++ [c.st.reconnectionInProgress] } := by
  unfold awaitT fireWatchdogIfDue
  simp [Nat.not_le.mpr h]

theorem awaitT_fired_prev {d : Nat} {c : Ctx}
    (h : (awaitT d c).watchdogFired = false) : c.watchdogFired = false := by
  unfold awaitT fireWatchdogIfDue at h
  by_cases hc : (c.st.reconnectTimeoutId && decide (WATCHDOG_MS <= c.elapsed + d)) = true
  . simp [hc] at h
  . simpa [hc] using h

theorem awaitT_pass {d : Nat} {c : Ctx}
    (h : (awaitT d c).watchdogFired = false) :
    awaitT d c =
      { c with elapsed := c.elapsed + d
               suspGuards := c.suspGuards ++ [c.st.reconnectionInProgress] } := by
  unfold awaitT fireWatchdogIfDue at h ⊢
  by_cases hc : (c.st.reconnectTimeoutId && decide (WATCHDOG_MS <= c.elapsed + d)) = true
  . simp [hc] at h
  . simp [hc]

theorem awaitT_mono {d : Nat} {c : Ctx}
    (h : c.watchdogFired = true) : (awaitT d c).watchdogFired = true := by
  unfold awaitT fireWatchdogIfDue
  by_cases hc : (c.st.reconnectTimeoutId && decide (WATCHDOG_MS <= c.elapsed + d)) = true
  . simp [hc]
  . simp [hc, h]

theorem stepNote_fired (t : StepTag) (c : Ctx) :
    (stepNote t c).watchdogFired = c.watchdogFired := rfl

theorem pubStatus_fired (s : ConnectionStatus) (c : Ctx) :
    (pubStatus s c).watchdogFired = c.watchdogFired := rfl

theorem finallyExit_fired (c : Ctx) :
    (finallyExit c).watchdogFired = c.watchdogFired := rfl

theorem rp_mono (env : Env) {c : Ctx} (h : c.watchdogFired = true) :
    (realtimeAndProbe env c).watchdogFired = true := by
  unfold realtimeAndProbe
  cases hr : env.realtime <;>
    by_cases hp : probeFails env = true <;>
      simp only [hp, Bool.false_eq_true, if_true, if_false, ite_true, ite_false,
        finallyExit_fired, pubStatus_fired, stepNote_fired] <;>
      repeat first
        | exact h
        | apply awaitT_mono
        | simp only [stepNote_fired, pubStatus_fired, finallyExit_fired]

theorem rp_fired_prev (env : Env) {c : Ctx}
    (h : (realtimeAndProbe env c).watchdogFired = false) :
    c.watchdogFired = false := by
  cases hc : c.watchdogFired
  . rfl
  . rw [rp_mono env hc] at h
    exact absurd h (by simp)

theorem rp_no_fire (env : Env) (c : Ctx)
    (hw : (realtimeAndProbe env c).watchdogFired = false) :
    (realtimeAndProbe env c).events =
      c.events ++
        (if probeFails env then [(statusKey, some ConnectionStatus.ERROR)]
         else [(statusKey, some ConnectionStatus.READY), (restoredKey, none),
               (refreshNeededKey, none)]) ∧
    (realtimeAndProbe env c).steps = c.steps ++ [StepTag.realtime, StepTag.probe] ∧
    (realtimeAndProbe env c).suspGuards =
      c.suspGuards ++ List.replicate (rpSuspCount env) c.st.reconnectionInProgress ∧
    (realtimeAndProbe env c).state.connectionStatus =
      (if probeFails env then ConnectionStatus.ERROR else ConnectionStatus.READY) := by
  unfold realtimeAndProbe at hw ⊢
  cases hr : env.realtime with
  | ok dDisc dConn =>
    simp only [hr] at hw ⊢
    by_cases hp : probeFails env = true
    . simp only [hp, if_true, ite_true, eq_self_iff_true] at hw ⊢
      simp only [finallyExit_fired, pubStatus_fired] at hw
      have h5 : (awaitT dConn (awaitT 300 (awaitT dDisc
          (stepNote StepTag.realtime c)))).watchdogFired = false := by
        have h := awaitT_fired_prev hw
        simpa [stepNote_fired] using h
      have h4 := awaitT_fired_prev h5
      have h3 := awaitT_fired_prev h4
      rw [awaitT_pass hw, awaitT_pass h5, awaitT_pass h4, awaitT_pass h3]
      simp [stepNote, pubStatus, finallyExit, rpSuspCount, hr, List.replicate]
    . simp only [hp, if_false, ite_false, Bool.not_eq_true] at hw ⊢
      simp only [finallyExit_fired, pubStatus_fired] at hw
      have h5 : (awaitT dConn (awaitT 300 (awaitT dDisc
          (stepNote StepTag.realtime c)))).watchdogFired = false := by
        have h := awaitT_fired_prev hw
        simpa [stepNote_fired] using h
      have h4 := awaitT_fired_prev h5
      have h3 := awaitT_fired_prev h4
      rw [awaitT_pass hw, awaitT_pass h5, awaitT_pass h4, awaitT_pass h3]
      simp [stepNote, pubStatus, finallyExit, rpSuspCount, hr, List.replicate]
  | fail d =>
    simp only [hr] at hw ⊢
    by_cases hp : probeFails env = true
    . simp only [hp, if_true, ite_true, eq_self_iff_true] at hw ⊢
      simp only [finallyExit_fired, pubStatus_fired] at hw
      have h1 : (awaitT d (stepNote StepTag.realtime c)).watchdogFired = false := by
        have h := awaitT_fired_prev hw
        simpa [stepNote_fired] using h
      rw [awaitT_pass hw, awaitT_pass h1]
      simp [stepNote, pubStatus, finallyExit, rpSuspCount, hr, List.replicate]
    . simp only [hp, if_false, ite_false, Bool.not_eq_true] at hw ⊢
      simp only [finallyExit_fired, pubStatus_fired] at hw
      have h1 : (awaitT d (stepNote StepTag.realtime c)).watchdogFired = false := by
        have h := awaitT_fired_prev hw
        simpa [stepNote_fired] using h
      rw [awaitT_pass hw, awaitT_pass h1]
      simp [stepNote, pubStatus, finallyExit, rpSuspCount, hr, List.replicate]

theorem all_id_replicate_true (n : Nat) :
    (List.replicate n true).all (fun b => b) = true := by
  induction n with
  | zero => rfl
  | succ k ih => simp [List.replicate, ih]

theorem rp_clears (env : Env) (c : Ctx) :
    (realtimeAndProbe env c).state.reconnectionInProgress = false ∧
    (realtimeAndProbe env c).state.reconnectTimeoutId = false := by
  unfold realtimeAndProbe
  cases hr : env.realtime <;>
    by_cases hp : probeFails env = true <;>
      simp [hp, finallyExit]

theorem run_clears (env : Env) (s : CMState) :
    (runRecovery env s).state.reconnectionInProgress = false ∧
    (runRecovery env s).state.reconnectTimeoutId = false := by
  simp only [runRecovery]
  by_cases h1 : sessionFails env = true
  . simp [h1, finallyExit]
  . by_cases h2 : sessionMissing env = true
    . simp [h1, h2, finallyExit]
    . by_cases h3 : longInactivity env s = true
      . by_cases h4 : refreshAborts env = true
        . simp [h1, h2, h3, h4, finallyExit]
        . simp only [h1, h2, h3, h4]
          simp
          exact rp_clears env _
      . simp only [h1, h2, h3]
        simp
        exact rp_clears env _

theorem run_no_fire (env : Env) (s : CMState)
    (hw : (runRecovery env s).watchdogFired = false) :
    (runRecovery env s).events = eventsOf env s ∧
    (runRecovery env s).steps = stepsOf env s ∧
    (runRecovery env s).suspGuards.all (fun b => b) = true ∧
    (runRecovery env s).state.connectionStatus = terminalOf env s := by
  simp only [runRecovery] at hw ⊢
  by_cases h1 : sessionFails env = true
  . simp only [h1, ite_true, eq_self_iff_true, if_true] at hw ⊢
    simp only [finallyExit_fired, pubStatus_fired] at hw
    rw [awaitT_pass hw]
    simp [stepNote, pubStatus, finallyExit, eventsOf, stepsOf, terminalOf, h1]
  . by_cases h2 : sessionMissing env = true
    . simp only [h1, h2] at hw ⊢
      simp only [if_false, ite_false, if_true, ite_true, Bool.false_eq_true,
        eq_self_iff_true] at hw ⊢
      simp only [finallyExit_fired, pubStatus_fired] at hw
      rw [awaitT_pass hw]
      simp [stepNote, pubStatus, finallyExit, eventsOf, stepsOf, terminalOf, h1, h2]
    . by_cases h3 : longInactivity env s = true
      . by_cases h4 : refreshAborts env = true
        . simp only [h1, h2, h3, h4] at hw ⊢
          simp only [if_false, ite_false, if_true, ite_true, Bool.false_eq_true,
            eq_self_iff_true] at hw ⊢
          simp only [finallyExit_fired, pubStatus_fired] at hw
          have hX1 : (awaitT (min env.sessionDur STEP_TIMEOUT_MS)
              (stepNote StepTag.sessionCheck
                (pubStatus ConnectionStatus.AUTHENTICATING
                  (pubStatus ConnectionStatus.RECONNECTING
                    { st := { { s with reconnectTimeoutId := false } with
                                reconnectionInProgress := true
                                reconnectTimeoutId := true }
                      elapsed := 0
                      events := []
                      steps := []
                      suspGuards := []
                      watchdogFired := false })))).watchdogFired = false := by
            have h := awaitT_fired_prev hw
            simpa [stepNote_fired] using h
          rw [awaitT_pass hX1] at hw ⊢
          rw [awaitT_pass hw]
          simp [stepNote, pubStatus, finallyExit, eventsOf, stepsOf, terminalOf,
            h1, h2, h3, h4]
        . simp only [h1, h2, h3, h4] at hw ⊢
          simp only [if_false, ite_false, if_true, ite_true, Bool.false_eq_true,
            eq_self_iff_true] at hw ⊢
          have hX2 := rp_fired_prev env hw
          have hX1 : (awaitT (min env.sessionDur STEP_TIMEOUT_MS)
              (stepNote StepTag.sessionCheck
                (pubStatus ConnectionStatus.AUTHENTICATING
                  (pubStatus ConnectionStatus.RECONNECTING
                    { st := { { s with reconnectTimeoutId := false } with
                                reconnectionInProgress := true
                                reconnectTimeoutId := true }
                      elapsed := 0
                      events := []
                      steps := []
                      suspGuards := []
                      watchdogFired := false })))).watchdogFired = false := by
            have h := awaitT_fired_prev hX2
            simpa [stepNote_fired] using h
          rw [awaitT_pass hX1] at hX2 hw ⊢
          rw [awaitT_pass hX2] at hw ⊢
          obtain ⟨he, hsx, hgx, hstx⟩ := rp_no_fire env _ hw
          rw [he, hsx, hgx, hstx]
          cases hp : probeFails env <;>
            simp [stepNote, pubStatus, eventsOf, stepsOf, terminalOf, rpSuspCount,
              h1, h2, h3, h4, hp, all_id_replicate_true]
      . simp only [h1, h2, h3] at hw ⊢
        simp only [if_false, ite_false, if_true, ite_true, Bool.false_eq_true,
          eq_self_iff_true] at hw ⊢
        have hX1 := rp_fired_prev env hw
        rw [awaitT_pass hX1] at hw ⊢
        obtain ⟨he, hsx, hgx, hstx⟩ := rp_no_fire env _ hw
        rw [he, hsx, hgx, hstx]
        cases hp : probeFails env <;>
          simp [stepNote, pubStatus, eventsOf, stepsOf, terminalOf, rpSuspCount,
            h1, h2, h3, hp, all_id_replicate_true]

end ConnMgr

theorem busGet_busSet (b : EventBusM.Bus) (t : String) (l : List EventBusM.CB) :
    EventBusM.busGet (EventBusM.busSet b t l) t = l := by
  simp [EventBusM.busGet, EventBusM.busSet, List.lookup]

/-- C10: if the same callback is subscribed twice to one topic of the event
bus, the unsubscribe closure returned by either subscription (both perform
`filter(cb => cb !== callback)`, so both are the same state transformation)
removes both registrations at once: a subsequent publish on that topic
invokes the callback zero times — while before the unsubscribe a publish
would have invoked it twice more than before the subscriptions. -/
theorem claim_C10_double_subscribe_unsubscribe (b : EventBusM.Bus) (t : String)
    (c : EventBusM.CB) :
    (EventBusM.publishInvocations
      (EventBusM.unsubscribe
        (EventBusM.subscribe (EventBusM.subscribe b t c) t c) t c) t).count c = 0 ∧
    (EventBusM.publishInvocations
      (EventBusM.subscribe (EventBusM.subscribe b t c) t c) t).count c =
      (EventBusM.publishInvocations b t).count c + 2 := by
  constructor
  . simp [EventBusM.publishInvocations, EventBusM.unsubscribe, EventBusM.subscribe,
      busGet_busSet]
    exact List.count_eq_zero.mpr (by
      intro hmem
      have := List.of_mem_filter hmem
      simp at this)
  . simp [EventBusM.publishInvocations, EventBusM.subscribe, busGet_busSet,
      List.count_append]

/-- C5 counterexample: a stored expiry value with no parsable numeric prefix
runs through `parseInt` to `NaN`, and the JavaScript comparison
`currentTime >= NaN` is `false`, so `isSessionExpired` reports the session
NOT expired — the claim says an unparsable expiry always reads as expired
(`true`). -/
theorem claim_C5_counterexample :
    AuthSvc.isSessionExpired
      [(AuthSvc.SESSION_EXPIRY_KEY, AuthSvc.PrefRead.val ("not-a-number"))]
      999999999 = false := by
  decide

/-- C5 (amended): `isSessionExpired` returns true when no expiry is
stored, when the stored value is the empty string (JS falsy, caught by
`if (!value)`), and when the storage read fails; when the stored string
has a parsable numeric prefix it returns `currentTime >= expiry` of the
parsed value; but a NON-EMPTY stored value with no parsable numeric
prefix parses to `NaN` and the comparison is `false`, so such an expiry
is reported as still valid (fail-open), contrary to the original
claim. -/
theorem claim_C5_amended (st : AuthSvc.Storage) (now : Int) :
    (AuthSvc.prefGet st AuthSvc.SESSION_EXPIRY_KEY = AuthSvc.PrefRead.empty →
      AuthSvc.isSessionExpired st now = true) ∧
    (AuthSvc.prefGet st AuthSvc.SESSION_EXPIRY_KEY = AuthSvc.PrefRead.err →
      AuthSvc.isSessionExpired st now = true) ∧
    (AuthSvc.prefGet st AuthSvc.SESSION_EXPIRY_KEY = AuthSvc.PrefRead.val ("") →
      AuthSvc.isSessionExpired st now = true) ∧
    (∀ v e, AuthSvc.prefGet st AuthSvc.SESSION_EXPIRY_KEY = AuthSvc.PrefRead.val v →
      v ≠ "" → AuthSvc.parseInt10 v = some e →
      AuthSvc.isSessionExpired st now = decide (now ≥ e)) ∧
    (∀ v, AuthSvc.prefGet st AuthSvc.SESSION_EXPIRY_KEY = AuthSvc.PrefRead.val v →
      v ≠ "" → AuthSvc.parseInt10 v = none →
      AuthSvc.isSessionExpired st now = false) := by
  refine ⟨fun h => ?_, fun h => ?_, fun h => ?_, fun v e hv hne hp => ?_,
    fun v hv hne hp => ?_⟩
  . simp [AuthSvc.isSessionExpired, h]
  . simp [AuthSvc.isSessionExpired, h]
  . simp [AuthSvc.isSessionExpired, h]
  . simp [AuthSvc.isSessionExpired, hv, hne, hp]
  . simp [AuthSvc.isSessionExpired, hv, hne, hp]

theorem claim_C5_amended_witness :
    AuthSvc.isSessionExpired [] 5 = true ∧
    AuthSvc.isSessionExpired
      [(AuthSvc.SESSION_EXPIRY_KEY, AuthSvc.PrefRead.val (""))] 5 = true ∧
    AuthSvc.isSessionExpired
      [(AuthSvc.SESSION_EXPIRY_KEY, AuthSvc.PrefRead.val ("100"))] 100 = true := by
  refine ⟨(claim_C5_amended [] 5).1 rfl, ?_, ?_⟩
  . exact (claim_C5_amended
      [(AuthSvc.SESSION_EXPIRY_KEY, AuthSvc.PrefRead.val (""))] 5).2.2.1 rfl
  . have h := (claim_C5_amended
      [(AuthSvc.SESSION_EXPIRY_KEY, AuthSvc.PrefRead.val ("100"))] 100).2.2.2.1
      ("100") 100 rfl (by decide) (by decide)
    simpa using h

/-- C6: `refreshToken` succeeds exactly when a non-empty refresh token is
stored (and readable) and the remote exchange returns a session; on every
failure — no refresh token stored, storage read error, remote error result,
remote result with no session, or a thrown exception — it returns false
with the stored access token, refresh token, expiry, and user data exactly
as they were; the new session is stored (via `storeSession`) only on
success. -/
theorem claim_C6_refresh_failure_frame (st : AuthSvc.Storage)
    (remote : String → AuthSvc.RefreshRemote) :
    ((AuthSvc.refreshToken st remote).1 = false →
      (AuthSvc.refreshToken st remote).2 = st) ∧
    ((AuthSvc.refreshToken st remote).1 = true ↔
      ∃ rt sess, AuthSvc.prefGet st AuthSvc.REFRESH_TOKEN_KEY = AuthSvc.PrefRead.val rt ∧
        rt ≠ "" ∧ remote rt = AuthSvc.RefreshRemote.ok sess) ∧
    (∀ rt sess, AuthSvc.prefGet st AuthSvc.REFRESH_TOKEN_KEY = AuthSvc.PrefRead.val rt →
      rt ≠ "" → remote rt = AuthSvc.RefreshRemote.ok sess →
      AuthSvc.refreshToken st remote = (true, AuthSvc.storeSession st sess)) := by
  refine ⟨?_, ?_, ?_⟩
  . intro h
    cases hg : AuthSvc.prefGet st AuthSvc.REFRESH_TOKEN_KEY with
    | err => simp [AuthSvc.refreshToken, hg]
    | empty => simp [AuthSvc.refreshToken, hg]
    | val rt =>
      by_cases he : rt = ""
      . simp [AuthSvc.refreshToken, hg, he]
      . cases hr : remote rt with
        | errResult => simp [AuthSvc.refreshToken, hg, he, hr]
        | noSession => simp [AuthSvc.refreshToken, hg, he, hr]
        | exn => simp [AuthSvc.refreshToken, hg, he, hr]
        | ok sess => simp [AuthSvc.refreshToken, hg, he, hr] at h
  . constructor
    . intro h
      cases hg : AuthSvc.prefGet st AuthSvc.REFRESH_TOKEN_KEY with
      | err => simp [AuthSvc.refreshToken, hg] at h
      | empty => simp [AuthSvc.refreshToken, hg] at h
      | val rt =>
        by_cases he : rt = ""
        . simp [AuthSvc.refreshToken, hg, he] at h
        . cases hr : remote rt with
          | ok sess => exact ⟨rt, sess, rfl, he, hr⟩
          | errResult => simp [AuthSvc.refreshToken, hg, he, hr] at h
          | noSession => simp [AuthSvc.refreshToken, hg, he, hr] at h
          | exn => simp [AuthSvc.refreshToken, hg, he, hr] at h
    . rintro ⟨rt, sess, hg, he, hr⟩
      simp [AuthSvc.refreshToken, hg, he, hr]
  . intro rt sess hg he hr
    simp [AuthSvc.refreshToken, hg, he, hr]

theorem claim_C6_refresh_failure_frame_witness :
    (AuthSvc.refreshToken
      [(AuthSvc.REFRESH_TOKEN_KEY, AuthSvc.PrefRead.val ("tok"))]
      (fun _ => AuthSvc.RefreshRemote.exn)).2 =
      [(AuthSvc.REFRESH_TOKEN_KEY, AuthSvc.PrefRead.val ("tok"))] :=
  (claim_C6_refresh_failure_frame
    [(AuthSvc.REFRESH_TOKEN_KEY, AuthSvc.PrefRead.val ("tok"))]
    (fun _ => AuthSvc.RefreshRemote.exn)).1 (by decide)

theorem takeLast_absorb {α : Type} (n : Nat) (l m : List α) :
    BgLoc.takeLast n (BgLoc.takeLast n l ++ m) = BgLoc.takeLast n (l ++ m) := by
  simp only [BgLoc.takeLast, List.length_append, List.length_drop,
    List.drop_append_eq_append_drop, List.drop_drop]
  congr 1
  . congr 1
    omega
  . congr 1
    omega

theorem failedEntries_cons_ok (a : BgLoc.Attempt) (as : List BgLoc.Attempt)
    (h : a.ok = true) :
    BgLoc.failedEntries (a :: as) = BgLoc.failedEntries as := by
  simp [BgLoc.failedEntries, List.filter, h]

theorem failedEntries_cons_fail (a : BgLoc.Attempt) (as : List BgLoc.Attempt)
    (h : a.ok = false) :
    BgLoc.failedEntries (a :: as) =
      BgLoc.PendingUpload.mk a.data a.now :: BgLoc.failedEntries as := by
  simp [BgLoc.failedEntries, List.filter, h]

theorem runAttempts_eq (q : List BgLoc.PendingUpload) (as : List BgLoc.Attempt)
    (h : q.length ≤ 50) :
    BgLoc.runAttempts q as = BgLoc.takeLast 50 (q ++ BgLoc.failedEntries as) := by
  induction as generalizing q with
  | nil =>
    simp [BgLoc.runAttempts, BgLoc.failedEntries, BgLoc.takeLast]
    have : q.length - 50 = 0 := by omega
    simp [this]
  | cons a as ih =>
    cases ha : a.ok with
    | true =>
      have step : BgLoc.runAttempts q (a :: as) = BgLoc.runAttempts q as := by
        simp [BgLoc.runAttempts, BgLoc.sendLocationToServer, ha]
      rw [step, ih q h, failedEntries_cons_ok a as ha]
    | false =>
      have step : BgLoc.runAttempts q (a :: as) =
          BgLoc.runAttempts (BgLoc.storeFailedUpdate q a.data a.now) as := by
        simp [BgLoc.runAttempts, BgLoc.sendLocationToServer, ha]
      have hlen : (BgLoc.storeFailedUpdate q a.data a.now).length ≤ 50 := by
        simp [BgLoc.storeFailedUpdate, BgLoc.takeLast]
        omega
      rw [step, ih _ hlen, failedEntries_cons_fail a as ha]
      show BgLoc.takeLast 50 (BgLoc.takeLast 50 (q ++ [_]) ++ _) = _
      rw [takeLast_absorb]
      simp

/-- C7: a location sample whose upload fails is routed by
`sendLocationToServer` into the persisted failed-updates queue rather than
discarded, and across any sequence of upload attempts starting from a
queue within capacity, the persisted queue is exactly the last 50 of the
initial queue followed by the failed samples in insertion (FIFO) order —
so it always holds at most 50 entries and evicts oldest-first past
capacity, and every failed sample that is dropped is dropped only by that
bounded-queue eviction. -/
theorem claim_C7_failed_uploads_queued_bounded (q : List BgLoc.PendingUpload)
    (as : List BgLoc.Attempt) (d : BgLoc.LocationData) (t : Nat)
    (h : q.length ≤ 50) :
    BgLoc.sendLocationToServer false q d t =
      (false, BgLoc.takeLast 50 (q ++ [BgLoc.PendingUpload.mk d t])) ∧
    BgLoc.sendLocationToServer true q d t = (true, q) ∧
    BgLoc.runAttempts q as = BgLoc.takeLast 50 (q ++ BgLoc.failedEntries as) ∧
    (BgLoc.runAttempts q as).length ≤ 50 := by
  refine ⟨rfl, rfl, runAttempts_eq q as h, ?_⟩
  rw [runAttempts_eq q as h]
  simp [BgLoc.takeLast]
  omega

theorem claim_C7_failed_uploads_queued_bounded_witness :
    BgLoc.runAttempts []
      [BgLoc.Attempt.mk false (BgLoc.LocationData.mk 1 2 ("log-1")) 10,
       BgLoc.Attempt.mk true (BgLoc.LocationData.mk 3 4 ("log-1")) 20,
       BgLoc.Attempt.mk false (BgLoc.LocationData.mk 5 6 ("log-1")) 30] =
      [BgLoc.PendingUpload.mk (BgLoc.LocationData.mk 1 2 ("log-1")) 10,
       BgLoc.PendingUpload.mk (BgLoc.LocationData.mk 5 6 ("log-1")) 30] := by
  have h := (claim_C7_failed_uploads_queued_bounded []
    [BgLoc.Attempt.mk false (BgLoc.LocationData.mk 1 2 ("log-1")) 10,
     BgLoc.Attempt.mk true (BgLoc.LocationData.mk 3 4 ("log-1")) 20,
     BgLoc.Attempt.mk false (BgLoc.LocationData.mk 5 6 ("log-1")) 30]
    (BgLoc.LocationData.mk 0 0 ("x")) 0 (by decide)).2.2.1
  rw [h]
  rfl

theorem count_bool_split (rs : List Bool) :
    rs.count true + rs.count false = rs.length := by
  induction rs with
  | nil => rfl
  | cons b l ih => cases b <;> simp [List.count_cons] <;> omega

theorem remaining_length (q : List BgLoc.PendingUpload) (rs : List Bool)
    (h : rs.length = q.length) :
    (((q.zip rs).filter (fun p => !p.2)).map Prod.fst).length = rs.count false := by
  induction q generalizing rs with
  | nil =>
    cases rs with
    | nil => rfl
    | cons b l => simp at h
  | cons x q ih =>
    cases rs with
    | nil => simp at h
    | cons b l =>
      have h' : l.length = q.length := by simpa using h
      cases b <;> simp [List.filter, List.count_cons] <;> simpa using ih l h'

theorem remaining_sublist (q : List BgLoc.PendingUpload) (rs : List Bool)
    (h : rs.length = q.length) :
    (((q.zip rs).filter (fun p => !p.2)).map Prod.fst).Sublist q := by
  have h1 : ((q.zip rs).filter (fun p => !p.2)).Sublist (q.zip rs) :=
    List.filter_sublist _
  have h2 := h1.map Prod.fst
  rwa [List.map_fst_zip q rs (le_of_eq h.symm)] at h2

/-- The entries of the queue at exactly the positions where the aligned
result list reports a rejected resend, in queue order: the still-failed
subset, characterised by recursion on the two lists independently of the
code's zip-filter-map expression. -/
def BgLoc.stillFailed : List BgLoc.PendingUpload → List Bool →
    List BgLoc.PendingUpload
  | [], _ => []
  | _ :: _, [] => []
  | x :: q, b :: rs =>
    if b then BgLoc.stillFailed q rs else x :: BgLoc.stillFailed q rs

theorem zip_filter_eq_stillFailed (q : List BgLoc.PendingUpload)
    (rs : List Bool) :
    ((q.zip rs).filter (fun p => !p.2)).map Prod.fst = BgLoc.stillFailed q rs := by
  induction q generalizing rs with
  | nil => cases rs <;> rfl
  | cons x q ih =>
    cases rs with
    | nil => rfl
    | cons b rs =>
      cases b <;> simp [List.filter, BgLoc.stillFailed] <;> simpa using ih rs

/-- C8: `retryFailedUpdates` on a persisted queue of N entries of which K
succeed on resend returns K, and persists back EXACTLY the still-failed
entries — the entries at the rejected positions, in original order
(`stillFailed`), a sublist of the original queue of length N-K; when
every resend succeeds it returns N with an empty queue, and an absent or
empty queue returns 0 untouched. -/
theorem claim_C8_retry_partition (q : List BgLoc.PendingUpload) (rs : List Bool)
    (h : rs.length = q.length) :
    (BgLoc.retryFailedUpdates (some q) rs).1 = rs.count true ∧
    (∃ r, (BgLoc.retryFailedUpdates (some q) rs).2 = some r ∧
      r = BgLoc.stillFailed q rs ∧
      r.length = rs.count false ∧ r.Sublist q) ∧
    (rs.all (fun b => b) = true →
      BgLoc.retryFailedUpdates (some q) rs = (q.length, some [])) ∧
    BgLoc.retryFailedUpdates none rs = (0, none) ∧
    BgLoc.retryFailedUpdates (some []) rs = (0, some []) := by
  refine ⟨?_, ?_, ?_, rfl, rfl⟩
  . cases q with
    | nil =>
      cases rs with
      | nil => rfl
      | cons b l => simp at h
    | cons x q =>
      have hr := remaining_length (x :: q) rs h
      have hc := count_bool_split rs
      simp only [List.length_cons] at h
      simp only [BgLoc.retryFailedUpdates, List.length_cons]
      rw [if_neg (by simp)]
      simp only [hr]
      omega
  . cases q with
    | nil =>
      cases rs with
      | nil => exact ⟨[], rfl, rfl, rfl, List.Sublist.refl _⟩
      | cons b l => simp at h
    | cons x q =>
      refine ⟨BgLoc.stillFailed (x :: q) rs, ?_, rfl, ?_, ?_⟩
      . simp only [BgLoc.retryFailedUpdates, List.length_cons]
        rw [if_neg (by simp)]
        rw [zip_filter_eq_stillFailed]
      . rw [← zip_filter_eq_stillFailed]
        exact remaining_length (x :: q) rs h
      . rw [← zip_filter_eq_stillFailed]
        exact remaining_sublist (x :: q) rs h
  . intro hall
    have hf : rs.count false = 0 := by
      rw [List.count_eq_zero]
      intro hmem
      have := List.all_eq_true.mp hall false hmem
      simp at this
    cases q with
    | nil =>
      cases rs with
      | nil => rfl
      | cons b l => simp at h
    | cons x q =>
      have hr := remaining_length (x :: q) rs h
      have hc := count_bool_split rs
      have hnil : ((((x :: q).zip rs).filter (fun p => !p.2)).map Prod.fst) = [] := by
        rw [← List.length_eq_zero]
        omega
      simp only [BgLoc.retryFailedUpdates, List.length_cons]
      rw [if_neg (by simp)]
      simp only [hnil, List.length_nil]
      simp

theorem claim_C8_retry_partition_witness :
    BgLoc.retryFailedUpdates
      (some [BgLoc.PendingUpload.mk (BgLoc.LocationData.mk 1 2 ("log-1")) 10,
             BgLoc.PendingUpload.mk (BgLoc.LocationData.mk 3 4 ("log-1")) 20,
             BgLoc.PendingUpload.mk (BgLoc.LocationData.mk 5 6 ("log-1")) 30])
      [true, true, true] = (3, some []) :=
  (claim_C8_retry_partition
    [BgLoc.PendingUpload.mk (BgLoc.LocationData.mk 1 2 ("log-1")) 10,
     BgLoc.PendingUpload.mk (BgLoc.LocationData.mk 3 4 ("log-1")) 20,
     BgLoc.PendingUpload.mk (BgLoc.LocationData.mk 5 6 ("log-1")) 30]
    [true, true, true] (by decide)).2.2.1 (by decide)

theorem prefsLookup_set_same (p : BgLoc.Prefs) (k v : String) :
    BgLoc.prefsLookup (BgLoc.prefsSet p k v) k = some v := by
  simp [BgLoc.prefsLookup, BgLoc.prefsSet]

theorem prefsLookup_set_other (p : BgLoc.Prefs) (k v k2 : String) (h : k2 ≠ k) :
    BgLoc.prefsLookup (BgLoc.prefsSet p k v) k2 = BgLoc.prefsLookup p k2 := by
  simp [BgLoc.prefsLookup, BgLoc.prefsSet, h]

theorem keys_distinct : BgLoc.ATTENDANCE_LOG_ID ≠ BgLoc.LOCATION_TRACKING_ENABLED := by
  decide

theorem stopTracking_good (st : BgLoc.BLState) (_h : BgLoc.goodState st = true) :
    BgLoc.goodState (BgLoc.stopTracking st) = true := by
  simp [BgLoc.goodState, BgLoc.stopTracking, prefsLookup_set_same]

theorem startTracking_good (env : BgLoc.TrackEnv) (id? : Option String)
    (st : BgLoc.BLState) (h : BgLoc.goodState st = true) :
    BgLoc.goodState (BgLoc.startTracking env id? st).2 = true := by
  have hEA : ∀ (p : BgLoc.Prefs) (v : String),
      BgLoc.prefsLookup (BgLoc.prefsSet p BgLoc.LOCATION_TRACKING_ENABLED v)
        BgLoc.ATTENDANCE_LOG_ID =
      BgLoc.prefsLookup p BgLoc.ATTENDANCE_LOG_ID :=
    fun p v => prefsLookup_set_other p _ v _ keys_distinct
  match id? with
  | none => exact h
  | some id =>
    by_cases he : id = ""
    . simp [BgLoc.startTracking, he, h]
    . by_cases hp : env.permissionGranted = true
      . cases hw : env.watchResult with
        | none =>
          simp [BgLoc.startTracking, he, hp, hw, BgLoc.stopTracking,
            BgLoc.goodState, prefsLookup_set_same]
        | some w =>
          simp [BgLoc.startTracking, he, hp, hw, BgLoc.stopTracking,
            BgLoc.goodState, prefsLookup_set_same, BgLoc.jsTruthy, hEA]
      . simp [BgLoc.startTracking, he, hp, BgLoc.goodState,
          prefsLookup_set_same, BgLoc.jsTruthy]

theorem initService_good (env : BgLoc.TrackEnv) (st : BgLoc.BLState)
    (h : BgLoc.goodState st = true) :
    BgLoc.goodState (BgLoc.initService env st) = true := by
  by_cases ht : (BgLoc.prefsLookup st.prefs BgLoc.LOCATION_TRACKING_ENABLED
      == some ("true")) = true
  . have h2 : BgLoc.jsTruthy
        (BgLoc.prefsLookup st.prefs BgLoc.ATTENDANCE_LOG_ID) = true := by
      simp only [BgLoc.goodState, Bool.and_eq_true, Bool.or_eq_true,
        Bool.not_eq_true'] at h
      rcases h.2 with hcase | hcase
      . rw [ht] at hcase
        cases hcase
      . exact hcase
    cases hA : BgLoc.prefsLookup st.prefs BgLoc.ATTENDANCE_LOG_ID with
    | none =>
      rw [hA] at h2
      simp [BgLoc.jsTruthy] at h2
    | some v =>
      rw [hA] at h2
      have hv : v ≠ "" := by simpa [BgLoc.jsTruthy] using h2
      simp only [BgLoc.initService, ht, hA, hv, if_true, ite_true, ne_eq,
        not_false_eq_true]
      have hgood2 : BgLoc.goodState
          { st with isTracking := true, currentAttendanceLogId := some v } = true := by
        simp [BgLoc.goodState, BgLoc.jsTruthy, hv, hA, ht]
      have := startTracking_good env (some v)
        { st with isTracking := true, currentAttendanceLogId := some v } hgood2
      simpa [BgLoc.jsTruthy, hv] using this
  . have ht' : (BgLoc.prefsLookup st.prefs BgLoc.LOCATION_TRACKING_ENABLED
        == some ("true")) = false := by
      simpa using ht
    cases hA : BgLoc.prefsLookup st.prefs BgLoc.ATTENDANCE_LOG_ID with
    | none => simp [BgLoc.initService, ht', hA, BgLoc.goodState]
    | some v =>
      by_cases hv : v = ""
      . simp [BgLoc.initService, ht', hA, hv, BgLoc.goodState]
      . simp [BgLoc.initService, ht', hA, hv, BgLoc.goodState]

theorem applyOps_good (st : BgLoc.BLState) (ops : List BgLoc.Op)
    (h : BgLoc.goodState st = true) :
    BgLoc.goodState (BgLoc.applyOps st ops) = true := by
  induction ops generalizing st with
  | nil => exact h
  | cons op ops ih =>
    have hstep : BgLoc.applyOps st (op :: ops) = BgLoc.applyOps (BgLoc.applyOp st op) ops := rfl
    rw [hstep]
    cases op with
    | init env => exact ih _ (initService_good env st h)
    | start env id? => exact ih _ (startTracking_good env id? st h)
    | stop => exact ih _ (stopTracking_good st h)

/-- C9: the background location service preserves the tracking-state
invariant that tracking enabled implies a truthy attendance-log
correlation id (in memory and in its persisted mirror): `startTracking`
without a correlation id (null or empty string) returns false
synchronously with no side effects at all, and every sequence of
`initialize`, `startTracking` and `stopTracking` operations — `initialize`
restoring both fields from persisted storage — keeps the invariant. -/
theorem claim_C9_tracking_state_invariant (env : BgLoc.TrackEnv)
    (st : BgLoc.BLState) (ops : List BgLoc.Op)
    (h : BgLoc.goodState st = true) :
    BgLoc.startTracking env none st = (false, st) ∧
    BgLoc.startTracking env (some ("")) st = (false, st) ∧
    BgLoc.goodState (BgLoc.applyOps st ops) = true := by
  refine ⟨rfl, ?_, applyOps_good st ops h⟩
  simp [BgLoc.startTracking]

def st0C9 : BgLoc.BLState :=
  { watchId := none
    isTracking := false
    currentAttendanceLogId := none
    prefs := fun _ => none }

theorem claim_C9_tracking_state_invariant_witness :
    BgLoc.startTracking (BgLoc.TrackEnv.mk true (some 7)) none st0C9 =
      (false, st0C9) ∧
    BgLoc.goodState (BgLoc.applyOps st0C9
      [BgLoc.Op.init (BgLoc.TrackEnv.mk true (some 7)),
       BgLoc.Op.start (BgLoc.TrackEnv.mk true (some 7)) (some ("log-1")),
       BgLoc.Op.stop]) = true :=
  ⟨(claim_C9_tracking_state_invariant (BgLoc.TrackEnv.mk true (some 7)) st0C9 [] rfl).1,
   (claim_C9_tracking_state_invariant (BgLoc.TrackEnv.mk true (some 7)) st0C9
      [BgLoc.Op.init (BgLoc.TrackEnv.mk true (some 7)),
       BgLoc.Op.start (BgLoc.TrackEnv.mk true (some 7)) (some ("log-1")),
       BgLoc.Op.stop] rfl).2.2⟩

/-- A sequence of entry-point invocations, each run to completion before
the next (the run-to-completion schedule; overlap is possible only
through the watchdog, treated separately). -/
def runSeq (envs : List ConnMgr.Env) (s : ConnMgr.CMState) : ConnMgr.CMState :=
  envs.foldl (fun t e => (ConnMgr.handleVisibilityChange e t).state) s

theorem statusesOf_eventsOf (env : ConnMgr.Env) (s : ConnMgr.CMState) :
    ConnMgr.statusesOf (ConnMgr.eventsOf env s) =
      [ConnMgr.ConnectionStatus.RECONNECTING,
       ConnMgr.ConnectionStatus.AUTHENTICATING,
       ConnMgr.terminalOf env s] := by
  by_cases ht : ConnMgr.terminalOf env s = ConnMgr.ConnectionStatus.READY <;>
    simp [ConnMgr.eventsOf, ConnMgr.statusesOf, ht]

theorem terminalOf_cases (env : ConnMgr.Env) (s : ConnMgr.CMState) :
    ConnMgr.terminalOf env s = ConnMgr.ConnectionStatus.DISCONNECTED ∨
    ConnMgr.terminalOf env s = ConnMgr.ConnectionStatus.ERROR ∨
    ConnMgr.terminalOf env s = ConnMgr.ConnectionStatus.READY := by
  unfold ConnMgr.terminalOf
  repeat' split
  all_goals simp

theorem hvc_run (env : ConnMgr.Env) (s : ConnMgr.CMState)
    (hv : env.visible = true) (hg : s.reconnectionInProgress = false) :
    ConnMgr.handleVisibilityChange env s = ConnMgr.runRecovery env s := by
  simp [ConnMgr.handleVisibilityChange, hv, hg]

theorem hvc_guard_preserved (env : ConnMgr.Env) (s : ConnMgr.CMState)
    (hg : s.reconnectionInProgress = false) :
    (ConnMgr.handleVisibilityChange env s).state.reconnectionInProgress = false := by
  unfold ConnMgr.handleVisibilityChange
  by_cases hv : env.visible = true
  . simp [hv, hg]
    exact (ConnMgr.run_clears env s).1
  . simp [hv, ConnMgr.noRun, hg]

theorem runSeq_guard (envs : List ConnMgr.Env) (s : ConnMgr.CMState)
    (hg : s.reconnectionInProgress = false) :
    (runSeq envs s).reconnectionInProgress = false := by
  induction envs generalizing s with
  | nil => exact hg
  | cons e envs ih => exact ih _ (hvc_guard_preserved e s hg)

/-- Idle singleton state: guard free, no timer, last active at 0. -/
def sIdle : ConnMgr.CMState :=
  { connectionStatus := ConnMgr.ConnectionStatus.CONNECTED
    reconnectionInProgress := false
    lastActiveTime := 0
    reconnectTimeoutId := false }

/-- A state with a recovery in progress. -/
def sBusy : ConnMgr.CMState :=
  { sIdle with reconnectionInProgress := true }

/-- A visible-tab run whose realtime reconnect takes 9.8 s: the 10 s
watchdog deadline falls inside the `connect()` await. -/
def envSlowRealtime : ConnMgr.Env :=
  { visible := true
    now := 0
    sessionDur := 1000
    sessionRes := ConnMgr.SessionRes.found
    refreshDur := 0
    refreshRes := ConnMgr.RefreshRes.ok
    realtime := ConnMgr.RealtimeRun.ok 0 9800
    probeDur := 100
    probeRes := ConnMgr.ProbeRes.ok }

/-- The singleton state at the suspension point right after the watchdog
of `envSlowRealtime` fires (status forced to ERROR, guard and timer
cleared by the watchdog callback) while the original recovery is still
awaiting its probe. -/
def sMidRecovery : ConnMgr.CMState :=
  { connectionStatus := ConnMgr.ConnectionStatus.ERROR
    reconnectionInProgress := false
    lastActiveTime := 0
    reconnectTimeoutId := false }

/-- A visible-tab run where every remote call is fast and succeeds. -/
def envQuickOk : ConnMgr.Env :=
  { visible := true
    now := 0
    sessionDur := 100
    sessionRes := ConnMgr.SessionRes.found
    refreshDur := 0
    refreshRes := ConnMgr.RefreshRes.ok
    realtime := ConnMgr.RealtimeRun.ok 0 0
    probeDur := 100
    probeRes := ConnMgr.ProbeRes.ok }

/-- Like `envSlowRealtime` but with a 9.5 s realtime connect. -/
def envSlowRealtime2 : ConnMgr.Env :=
  { envQuickOk with
    sessionDur := 500
    realtime := ConnMgr.RealtimeRun.ok 0 9500 }

/-- A run after 20 s of inactivity whose forced session refresh throws
(times out), with all later steps succeeding. -/
def envRefreshExn : ConnMgr.Env :=
  { envQuickOk with
    now := 20000
    refreshDur := 100
    refreshRes := ConnMgr.RefreshRes.exn }

/-- A run after 20 s of inactivity whose forced session refresh resolves
with an error result. -/
def envRefreshErr : ConnMgr.Env :=
  { envQuickOk with
    now := 20000
    refreshDur := 100
    refreshRes := ConnMgr.RefreshRes.errResult }

/-- C1 counterexample: in the `envSlowRealtime` run the watchdog fires
mid-sequence (releasing the `reconnectionInProgress` guard while the
sequence is still executing), so the run has a suspension point at which
the guard reads false; and an invocation arriving at that point — the
state `sMidRecovery` left by the watchdog callback — is not turned away
but starts a full second recovery (publishes events, runs steps) while
the first is still in flight.  This refutes "at most one recovery
sequence executes at a time". -/
theorem claim_C1_overlap_counterexample :
    (ConnMgr.handleVisibilityChange envSlowRealtime sIdle).suspGuards.contains false
      = true ∧
    (ConnMgr.handleVisibilityChange envSlowRealtime sIdle).watchdogFired = true ∧
    (ConnMgr.handleVisibilityChange envQuickOk sMidRecovery).events ≠ [] ∧
    (ConnMgr.handleVisibilityChange envQuickOk sMidRecovery).steps ≠ [] := by
  refine ⟨by decide, by decide, by decide, by decide⟩

/-- C1 (amended): a call made while `reconnectionInProgress` is true
publishes nothing, runs no recovery step and leaves status and guard
untouched, with `forceConnectionRefresh` returning false immediately; on
every exit path of a recovery body the guard is cleared and the watchdog
timer cancelled, so the guard is false after any sequence of
run-to-completion invocations that starts with it false; and — provided
the watchdog does not fire during the run — the guard reads true at every
suspension point, so a concurrently arriving invocation is turned away
and at most one recovery sequence executes at a time.  (When the watchdog
does fire, the guard is released while the sequence may still be running:
see the counterexample.) -/
theorem claim_C1_guard_amended (env : ConnMgr.Env) (s : ConnMgr.CMState)
    (envs : List ConnMgr.Env) :
    (s.reconnectionInProgress = true →
      (ConnMgr.handleVisibilityChange env s).events = [] ∧
      (ConnMgr.handleVisibilityChange env s).steps = [] ∧
      (ConnMgr.handleVisibilityChange env s).state.connectionStatus =
        s.connectionStatus ∧
      (ConnMgr.handleVisibilityChange env s).state.reconnectionInProgress = true ∧
      ConnMgr.forceConnectionRefresh env s = (false, ConnMgr.noRun s)) ∧
    (env.visible = true → s.reconnectionInProgress = false →
      (ConnMgr.handleVisibilityChange env s).state.reconnectionInProgress = false ∧
      (ConnMgr.handleVisibilityChange env s).state.reconnectTimeoutId = false) ∧
    ((ConnMgr.handleVisibilityChange env s).watchdogFired = false →
      (ConnMgr.handleVisibilityChange env s).suspGuards.all (fun b => b) = true) ∧
    (s.reconnectionInProgress = false →
      (runSeq envs s).reconnectionInProgress = false) := by
  refine ⟨?_, ?_, ?_, fun hg => runSeq_guard envs s hg⟩
  . intro hb
    unfold ConnMgr.handleVisibilityChange ConnMgr.forceConnectionRefresh
    by_cases hv : env.visible = true
    . simp [hv, hb, ConnMgr.noRun]
    . simp [hv, hb, ConnMgr.noRun]
  . intro hv hg
    rw [hvc_run env s hv hg]
    exact ConnMgr.run_clears env s
  . intro hw
    by_cases hv : env.visible = true
    . by_cases hg : s.reconnectionInProgress = true
      . simp [ConnMgr.handleVisibilityChange, hv, hg, ConnMgr.noRun]
      . have hgf : s.reconnectionInProgress = false := by simpa using hg
        rw [hvc_run env s hv hgf] at hw ⊢
        exact (ConnMgr.run_no_fire env s hw).2.2.1
    . simp [ConnMgr.handleVisibilityChange, hv, ConnMgr.noRun]

theorem claim_C1_guard_amended_witness :
    (ConnMgr.handleVisibilityChange envQuickOk sBusy).events = [] ∧
    ConnMgr.forceConnectionRefresh envQuickOk sBusy = (false, ConnMgr.noRun sBusy) ∧
    (ConnMgr.handleVisibilityChange envQuickOk sIdle).state.reconnectionInProgress
      = false ∧
    (ConnMgr.handleVisibilityChange envQuickOk sIdle).suspGuards.all (fun b => b)
      = true ∧
    (runSeq [envQuickOk, envSlowRealtime] sIdle).reconnectionInProgress = false := by
  have hb := (claim_C1_guard_amended envQuickOk sBusy []).1 rfl
  have hc := (claim_C1_guard_amended envQuickOk sIdle []).2.1 rfl rfl
  have hs := (claim_C1_guard_amended envQuickOk sIdle []).2.2.1 (by decide)
  have hq := (claim_C1_guard_amended envQuickOk sIdle
    [envQuickOk, envSlowRealtime]).2.2.2 rfl
  exact ⟨hb.1, hb.2.2.2.2, hc.1, hs, hq⟩

/-- C2 counterexample: in the `envSlowRealtime2` run the watchdog fires
during the realtime reconnect and publishes the terminal status `ERROR`;
the sequence is not cancelled, continues, and publishes the terminal
status `READY` as well — two terminal statuses within one recovery
sequence, refuting the claim for the watchdog-timeout path it explicitly
includes. -/
theorem claim_C2_two_terminals_counterexample :
    ConnMgr.statusesOf
        (ConnMgr.handleVisibilityChange envSlowRealtime2 sIdle).events =
      [ConnMgr.ConnectionStatus.RECONNECTING,
       ConnMgr.ConnectionStatus.AUTHENTICATING,
       ConnMgr.ConnectionStatus.ERROR,
       ConnMgr.ConnectionStatus.READY] ∧
    (ConnMgr.handleVisibilityChange envSlowRealtime2 sIdle).watchdogFired = true := by
  refine ⟨by decide, by decide⟩

/-- C2 (amended): within a single recovery sequence in which the watchdog
does not fire, the statuses published on the bus are exactly
`Reconnecting`, then `Authenticating`, then one terminal status among
`Disconnected`, `Error`, `Ready` — so `Authenticating` is never skipped
and exactly one terminal status is published.  (If the watchdog fires,
its `Error` publish can be followed by a second terminal from the still
running sequence: see the counterexample.) -/
theorem claim_C2_status_sequence_amended (env : ConnMgr.Env) (s : ConnMgr.CMState)
    (hv : env.visible = true) (hg : s.reconnectionInProgress = false)
    (hw : (ConnMgr.handleVisibilityChange env s).watchdogFired = false) :
    ConnMgr.statusesOf (ConnMgr.handleVisibilityChange env s).events =
      [ConnMgr.ConnectionStatus.RECONNECTING,
       ConnMgr.ConnectionStatus.AUTHENTICATING,
       ConnMgr.terminalOf env s] ∧
    (ConnMgr.terminalOf env s = ConnMgr.ConnectionStatus.DISCONNECTED ∨
     ConnMgr.terminalOf env s = ConnMgr.ConnectionStatus.ERROR ∨
     ConnMgr.terminalOf env s = ConnMgr.ConnectionStatus.READY) ∧
    (ConnMgr.handleVisibilityChange env s).state.connectionStatus =
      ConnMgr.terminalOf env s := by
  rw [hvc_run env s hv hg] at hw ⊢
  obtain ⟨he, _, _, hst⟩ := ConnMgr.run_no_fire env s hw
  exact ⟨by rw [he, statusesOf_eventsOf], terminalOf_cases env s, hst⟩

theorem claim_C2_status_sequence_amended_witness :
    ConnMgr.statusesOf (ConnMgr.handleVisibilityChange envQuickOk sIdle).events =
      [ConnMgr.ConnectionStatus.RECONNECTING,
       ConnMgr.ConnectionStatus.AUTHENTICATING,
       ConnMgr.terminalOf envQuickOk sIdle] ∧
    ConnMgr.terminalOf envQuickOk sIdle = ConnMgr.ConnectionStatus.READY :=
  ⟨(claim_C2_status_sequence_amended envQuickOk sIdle rfl rfl (by decide)).1,
   by decide⟩

/-- C3: on a fully successful recovery the manager publishes, in order, a
status-changed event carrying `READY`, then the connection-restored
event, then the data-refresh-needed event — but the `EVENTS` object of
eventBus.ts defines neither `CONNECTION_STATUS_CHANGED` nor
`CONNECTION_RESTORED`, so both publishes read JavaScript `undefined` and
land on the same bus key "undefined": the three topics are NOT pairwise
distinct (only `DATA_REFRESH_NEEDED` exists, as "data:refresh:needed").
A subscriber to the connection-restored topic also receives every
status-changed publish.  This evaluates the code at the failing input. -/
theorem claim_C3_topics_collide :
    (ConnMgr.handleVisibilityChange envQuickOk sIdle).events =
      [(ConnMgr.statusKey, some ConnMgr.ConnectionStatus.RECONNECTING),
       (ConnMgr.statusKey, some ConnMgr.ConnectionStatus.AUTHENTICATING),
       (ConnMgr.statusKey, some ConnMgr.ConnectionStatus.READY),
       (ConnMgr.restoredKey, none),
       (ConnMgr.refreshNeededKey, none)] ∧
    EventBusM.jsGet ("CONNECTION_STATUS_CHANGED") = none ∧
    EventBusM.jsGet ("CONNECTION_RESTORED") = none ∧
    ConnMgr.statusKey = "undefined" ∧
    ConnMgr.restoredKey = "undefined" ∧
    ConnMgr.refreshNeededKey = "data:refresh:needed" ∧
    ConnMgr.statusKey = ConnMgr.restoredKey ∧
    ConnMgr.statusKey ≠ ConnMgr.refreshNeededKey := by
  refine ⟨by decide, by decide, by decide, by decide, by decide, by decide,
    by decide, by decide⟩

/-- C4 counterexample: with 20 s of inactivity the forced refresh runs
and throws (its timeout race rejects); the catch logs and CONTINUES —
the sequence goes on to the realtime and probe steps and terminates
`READY`, not `Error`, refuting "for every failure of that refresh
(error result, timeout, or exception) the sequence sets status Error
... and stops". -/
theorem claim_C4_refresh_exception_counterexample :
    ConnMgr.longInactivity envRefreshExn sIdle = true ∧
    ConnMgr.StepTag.refresh ∈
      (ConnMgr.handleVisibilityChange envRefreshExn sIdle).steps ∧
    ConnMgr.StepTag.probe ∈
      (ConnMgr.handleVisibilityChange envRefreshExn sIdle).steps ∧
    (ConnMgr.handleVisibilityChange envRefreshExn sIdle).state.connectionStatus =
      ConnMgr.ConnectionStatus.READY := by
  refine ⟨by decide, by decide, by decide, by decide⟩

/-- C4 (amended): when a session is found within the check's timeout and
the inactivity duration exceeds 10 s, the refresh step is entered; if the
refresh RESOLVES with an error result, the sequence publishes exactly
`Reconnecting`, `Authenticating`, `Error`, runs no realtime or probe
step, and ends with status `Error`; but a refresh that rejects (timeout
or exception) is caught and the sequence continues to the realtime and
probe steps. -/
theorem claim_C4_refresh_failure_amended (env : ConnMgr.Env) (s : ConnMgr.CMState)
    (hv : env.visible = true) (hg : s.reconnectionInProgress = false)
    (hw : (ConnMgr.handleVisibilityChange env s).watchdogFired = false)
    (hsf : ConnMgr.sessionFails env = false)
    (hsm : ConnMgr.sessionMissing env = false)
    (hin : ConnMgr.longInactivity env s = true) :
    ConnMgr.StepTag.refresh ∈ (ConnMgr.handleVisibilityChange env s).steps ∧
    (ConnMgr.refreshAborts env = true →
      (ConnMgr.handleVisibilityChange env s).events =
        [(ConnMgr.statusKey, some ConnMgr.ConnectionStatus.RECONNECTING),
         (ConnMgr.statusKey, some ConnMgr.ConnectionStatus.AUTHENTICATING),
         (ConnMgr.statusKey, some ConnMgr.ConnectionStatus.ERROR)] ∧
      (ConnMgr.handleVisibilityChange env s).steps =
        [ConnMgr.StepTag.sessionCheck, ConnMgr.StepTag.refresh] ∧
      (ConnMgr.handleVisibilityChange env s).state.connectionStatus =
        ConnMgr.ConnectionStatus.ERROR) ∧
    (ConnMgr.refreshAborts env = false →
      ConnMgr.StepTag.realtime ∈ (ConnMgr.handleVisibilityChange env s).steps ∧
      ConnMgr.StepTag.probe ∈ (ConnMgr.handleVisibilityChange env s).steps) := by
  rw [hvc_run env s hv hg] at hw ⊢
  obtain ⟨he, hs, _, hst⟩ := ConnMgr.run_no_fire env s hw
  rw [he, hs, hst]
  refine ⟨?_, ?_, ?_⟩
  . simp [ConnMgr.stepsOf, hsf, hsm, hin]
    by_cases hra : ConnMgr.refreshAborts env = true <;> simp [hra]
  . intro hra
    refine ⟨?_, ?_, ?_⟩
    . simp [ConnMgr.eventsOf, ConnMgr.terminalOf, hsf, hsm, hin, hra]
    . simp [ConnMgr.stepsOf, hsf, hsm, hin, hra]
    . simp [ConnMgr.terminalOf, hsf, hsm, hin, hra]
  . intro hra
    simp [ConnMgr.stepsOf, hsf, hsm, hin, hra]

theorem claim_C4_refresh_failure_amended_witness :
    ConnMgr.StepTag.refresh ∈
      (ConnMgr.handleVisibilityChange envRefreshErr sIdle).steps ∧
    (ConnMgr.handleVisibilityChange envRefreshErr sIdle).events =
      [(ConnMgr.statusKey, some ConnMgr.ConnectionStatus.RECONNECTING),
       (ConnMgr.statusKey, some ConnMgr.ConnectionStatus.AUTHENTICATING),
       (ConnMgr.statusKey, some ConnMgr.ConnectionStatus.ERROR)] ∧
    (ConnMgr.handleVisibilityChange envRefreshErr sIdle).state.connectionStatus =
      ConnMgr.ConnectionStatus.ERROR := by
  have h := claim_C4_refresh_failure_amended envRefreshErr sIdle rfl rfl
    (by decide) (by decide) (by decide) (by decide)
  have h2 := h.2.1 (by decide)
  exact ⟨h.1, h2.1, h2.2.2⟩
